import Mathlib

/-!
# DIDRegistry — formal model of the identity lifecycle state machine

This development embeds the DID Registry of this repository (a Tact smart
contract on TON together with its TypeScript tests and scripts) into Lean 4
and proves the specified properties of the identity lifecycle state machine
and its anti-replay authorization protocol.

The canonical-message construction is translated directly from the source
(`createSignature` in `tests/Registry.spec.ts` and `scripts` interaction
code).  The contract body itself (`contracts/registry.tact`) is not among
the repository sources, only its tests, bindings, and callers are; the
ledger transition functions are therefore modelled from the specification,
as marked in their doc comments.
-/

namespace DIDRegistry

/-- Modelled from the spec: `MAX_USERNAME_LENGTH`, the upper bound on
username length.  The repository sources do not fix the numeric value
(the contract body is absent); the spec only requires that some positive
bound exists.  We fix a representative concrete value. -/
def MAX_USERNAME_LENGTH : Nat := 32

/-- Modelled from the spec: `MAX_KYC_HASH_LENGTH`, the upper bound on the
optional KYC hash length.  The numeric value is not fixed by the sources;
we fix a representative concrete value. -/
def MAX_KYC_HASH_LENGTH : Nat := 64

/-- Modelled from the spec: `MAX_NONCE_LOOKAHEAD`, the defensive ceiling on
the attempted nonce gap ("observed in practice as 100"; the README calls it
a maximum nonce gap of 100). -/
def MAX_NONCE_LOOKAHEAD : Nat := 100

/-- The registration record stored per identity key, after `DIDInfo` in the
repository (owner, username, optional KYC hash, active flag, timestamps,
nonce). -/
structure DIDRecord where
  owner : Nat
  username : String
  kycHash : Option String
  isActive : Bool
  createdAt : Nat
  updatedAt : Nat
  nonce : Nat
deriving Repr, DecidableEq

/-- Modelled from the spec: the durable contract state — the map from
identity key to registration record (`dids`), the ever-registered counter
(`totalDids`), and the contract-owner address kept by the `Ownable` trait
(initialized to the deployer; the Tact contract body is absent from the
sources, its shape is pinned by the README's contract excerpt and the
tests).  Identity keys and addresses are modelled as natural numbers. -/
structure Ledger where
  dids : Nat → Option DIDRecord
  totalDids : Nat
  contractOwner : Nat

/-- Modelled from the spec: the state right after deployment — empty record
map, zero counter, contract owner set to the deployer. -/
def initLedger (deployer : Nat) : Ledger :=
  { dids := fun _ => none, totalDids := 0, contractOwner := deployer }

/-- The rejection reasons of the error taxonomy (spec §7), plus the two
ownership-transfer rejections pinned by the repository's tests. -/
inductive RegError where
  | InvalidKey
  | InvalidField
  | DuplicateIdentity
  | NotFound
  | RevokedIdentity
  | AlreadyRevoked
  | BadNonce
  | BadSignature
  | NoOp
  | NotOwner
  | SameOwner
deriving Repr, DecidableEq

/-- The action/parameter set that is canonicalized and signed, following the
three message shapes built by `createSignature` in `tests/Registry.spec.ts`
(register: publicKey, username, optional kycHash, nonce; update: optional
newUsername, optional newKycHash, nonce; revoke: nonce). -/
inductive CanonicalRequest where
  | register (publicKey : Nat) (username : String) (kycHash : Option String) (nonce : Nat)
  | update (newUsername : Option String) (newKycHash : Option String) (nonce : Nat)
  | revoke (nonce : Nat)
deriving Repr, DecidableEq

/-- The canonical signed message, translated from `createSignature` in
`tests/Registry.spec.ts` (also in the interaction script): the string is
built as `` `${action}::` `` followed by, for register,
`publicKey:{pk}username:{username}` and, when present, `kycHash:{kycHash}`;
for update, the optional `newUsername:{u}` and `newKycHash:{k}` segments;
for revoke, nothing; and finally `nonce:{nonce}`.  Integers are rendered in
base 10 and strings verbatim, as in the source. -/
def canonicalMessage : CanonicalRequest → String
  | .register pk u kh n =>
      "register::" ++ "publicKey:" ++ toString pk ++ "username:" ++ u ++
        (match kh with
          | some k => "kycHash:" ++ k
          | none => "") ++ "nonce:" ++ toString n
  | .update nu nk n =>
      "update::" ++
        (match nu with
          | some u => "newUsername:" ++ u
          | none => "") ++
        (match nk with
          | some k => "newKycHash:" ++ k
          | none => "") ++ "nonce:" ++ toString n
  | .revoke n => "revoke::" ++ "nonce:" ++ toString n

/-- Modelled from the spec: the Ed25519 signature-verification primitive is
external to the repository (the contract body and the chain runtime are
absent from the sources).  It is modelled as an abstract boolean-valued
function of the claimed signer key, the canonical message, and the
signature value; the ledger operations are parametrized over it. -/
structure Env where
  checkSig : Nat → String → Nat → Bool

/-- Modelled from the spec (§4.1, Authorization Verifier): the request is
rejected with `BadNonce` immediately when the claimed nonce lies beyond the
defensive lookahead ceiling, rejected with `BadNonce` unless
`claimedNonce = currentNonce + 1`, and rejected with `BadSignature` unless
the signature verifies against the claimed signer key over the canonical
message; otherwise it is authorized (`none`). -/
def authorize (env : Env) (req : CanonicalRequest) (claimedSignerKey claimedNonce currentNonce signature : Nat) :
    Option RegError :=
  if claimedNonce > currentNonce + 1 + MAX_NONCE_LOOKAHEAD then some .BadNonce
  else if claimedNonce ≠ currentNonce + 1 then some .BadNonce
  else if env.checkSig claimedSignerKey (canonicalMessage req) signature then none
  else some .BadSignature

/-- The current nonce on file for a key: the record's nonce, or 0 if the key
never registered (spec §4.2 read-only queries; getter `getUserNonce`). -/
def getUserNonce (st : Ledger) (k : Nat) : Nat :=
  match st.dids k with
  | some r => r.nonce
  | none => 0

/-- The username length bound of the spec: `1 ≤ len(username) ≤
MAX_USERNAME_LENGTH`. -/
def usernameLenOk (u : String) : Bool :=
  1 ≤ u.length && u.length ≤ MAX_USERNAME_LENGTH

/-- The KYC-hash length bound of the spec, vacuous when the hash is
absent. -/
def kycLenOk : Option String → Bool
  | some kh => kh.length ≤ MAX_KYC_HASH_LENGTH
  | none => true

/-- The length bound on a supplied new username, vacuous when absent. -/
def newUsernameLenOk : Option String → Bool
  | some u => usernameLenOk u
  | none => true

/-- Modelled from the spec (§4.2 `register`): preconditions in order — no
existing record (else `DuplicateIdentity`), non-zero key (else
`InvalidKey`), `1 ≤ len(username) ≤ MAX_USERNAME_LENGTH` and the KYC-hash
bound (else `InvalidField`); then the Authorization Verifier runs with
`currentNonce = 0`; on success a fresh active record is created with
`nonce = claimedNonce`, `createdAt = updatedAt = now`, and the counter is
incremented.  Rejection returns the state unchanged. -/
def register (env : Env) (st : Ledger) (publicKey : Nat) (username : String)
    (kycHash : Option String) (claimedNonce signature now : Nat) :
    Ledger × Option RegError :=
  match st.dids publicKey with
  | some _ => (st, some .DuplicateIdentity)
  | none =>
    if publicKey = 0 then (st, some .InvalidKey)
    else if usernameLenOk username = false then (st, some .InvalidField)
    else if kycLenOk kycHash = false then (st, some .InvalidField)
    else
      match authorize env (.register publicKey username kycHash claimedNonce)
          publicKey claimedNonce 0 signature with
      | some e => (st, some e)
      | none =>
          ({ dids := fun k =>
               if k = publicKey then
                 some { owner := publicKey, username := username, kycHash := kycHash,
                        isActive := true, createdAt := now, updatedAt := now,
                        nonce := claimedNonce }
               else st.dids k,
             totalDids := st.totalDids + 1,
             contractOwner := st.contractOwner }, none)

/-- Modelled from the spec (§4.2 `update`): preconditions — record exists
(else `NotFound`) and is active (else `RevokedIdentity`), at least one field
supplied (else `NoOp`), any supplied new username within the length bound
(else `InvalidField`); then the Authorization Verifier runs with the
record's current nonce; on success only the supplied fields are replaced,
`updatedAt` is set to `now` and `nonce` to the claimed nonce.  Rejection
returns the state unchanged. -/
def update (env : Env) (st : Ledger) (publicKey : Nat)
    (newUsername newKycHash : Option String) (claimedNonce signature now : Nat) :
    Ledger × Option RegError :=
  match st.dids publicKey with
  | none => (st, some .NotFound)
  | some r =>
    if r.isActive = false then (st, some .RevokedIdentity)
    else if newUsername = none ∧ newKycHash = none then (st, some .NoOp)
    else if newUsernameLenOk newUsername = false then (st, some .InvalidField)
    else
      match authorize env (.update newUsername newKycHash claimedNonce)
          publicKey claimedNonce r.nonce signature with
      | some e => (st, some e)
      | none =>
          ({ st with dids := fun k =>
               if k = publicKey then
                 some { r with
                        username := newUsername.getD r.username,
                        kycHash := match newKycHash with
                          | some kh => some kh
                          | none => r.kycHash,
                        updatedAt := now,
                        nonce := claimedNonce }
               else st.dids k }, none)

/-- Modelled from the spec (§4.2 `revoke`): preconditions — record exists
(else `NotFound`) and is active (else `AlreadyRevoked`); then the
Authorization Verifier runs with the record's current nonce; on success
`isActive` is set to `false`, `updatedAt` to `now` and `nonce` to the
claimed nonce.  Rejection returns the state unchanged. -/
def revoke (env : Env) (st : Ledger) (publicKey claimedNonce signature now : Nat) :
    Ledger × Option RegError :=
  match st.dids publicKey with
  | none => (st, some .NotFound)
  | some r =>
    if r.isActive = false then (st, some .AlreadyRevoked)
    else
      match authorize env (.revoke claimedNonce) publicKey claimedNonce r.nonce signature with
      | some e => (st, some e)
      | none =>
          ({ st with dids := fun k =>
               if k = publicKey then
                 some { r with isActive := false, updatedAt := now, nonce := claimedNonce }
               else st.dids k }, none)

/-- Modelled from the spec: the `TransferOwnership` handler of the contract
is absent from the repository sources; its behaviour is pinned by the
repository's tests (ownership transfer succeeds only when the sender is the
current contract owner and the proposed owner differs from the current one;
any other attempt is rejected with the owner unchanged) and by the
owner-guard in the interaction script.  DID records are untouched. -/
def transferOwnership (st : Ledger) (sender newOwner : Nat) : Ledger × Option RegError :=
  if sender ≠ st.contractOwner then (st, some .NotOwner)
  else if newOwner = st.contractOwner then (st, some .SameOwner)
  else ({ st with contractOwner := newOwner }, none)

/-- Getter `getDid`: the full record for a key, if any. -/
def getDid (st : Ledger) (k : Nat) : Option DIDRecord :=
  st.dids k

/-- Getter `isDidActive`: whether the key has an active record. -/
def isDidActive (st : Ledger) (k : Nat) : Bool :=
  match st.dids k with
  | some r => r.isActive
  | none => false

/-- Getter `getDidUsername`: the username for a key, absent when the record
is missing or inactive (pinned by the revocation test: after revoke the
username getter returns null). -/
def getDidUsername (st : Ledger) (k : Nat) : Option String :=
  match st.dids k with
  | some r => if r.isActive then some r.username else none
  | none => none

/-- Getter `getDidKycHash`: the KYC hash for a key, absent when the record
is missing or inactive. -/
def getDidKycHash (st : Ledger) (k : Nat) : Option String :=
  match st.dids k with
  | some r => if r.isActive then r.kycHash else none
  | none => none

/-- Getter `getTotalDids`: the ever-registered identity count. -/
def getTotalDids (st : Ledger) : Nat :=
  st.totalDids

/-- Getter `getContractOwner`: the current contract owner. -/
def getContractOwner (st : Ledger) : Nat :=
  st.contractOwner

/-- An inbound mutation request: one of the three signed identity
operations, or an ownership transfer (which carries its sender). -/
inductive Request where
  | registerReq (publicKey : Nat) (username : String) (kycHash : Option String)
      (nonce signature : Nat)
  | updateReq (publicKey : Nat) (newUsername newKycHash : Option String)
      (nonce signature : Nat)
  | revokeReq (publicKey : Nat) (nonce signature : Nat)
  | transferReq (sender newOwner : Nat)
deriving Repr, DecidableEq

/-- Dispatch one inbound request against the ledger (the serially-consistent
state machine of spec §5), returning the next state and the rejection
reason, if any. -/
def applyRequest (env : Env) (now : Nat) (st : Ledger) : Request → Ledger × Option RegError
  | .registerReq pk u kh n sig => register env st pk u kh n sig now
  | .updateReq pk nu nk n sig => update env st pk nu nk n sig now
  | .revokeReq pk n sig => revoke env st pk n sig now
  | .transferReq s nw => transferOwnership st s nw

/-- Apply a list of timestamped requests in order, keeping only the state
(the ledger processes one mutation to completion before the next). -/
def applySeq (env : Env) (st : Ledger) : List (Nat × Request) → Ledger
  | [] => st
  | (now, req) :: rest => applySeq env (applyRequest env now st req).1 rest

end DIDRegistry

namespace DIDRegistry

/-! ## Characterization lemmas for the Authorization Verifier -/

theorem authorize_none_iff (env : Env) (req : CanonicalRequest) (k cn cur sig : Nat) :
    authorize env req k cn cur sig = none ↔
      cn = cur + 1 ∧ env.checkSig k (canonicalMessage req) sig = true := by
  unfold authorize
  split
  · next hgap =>
    constructor
    · intro h; exact absurd h (by simp)
    · rintro ⟨h1, _⟩; omega
  · split
    · next hne =>
      constructor
      · intro h; exact absurd h (by simp)
      · rintro ⟨h1, _⟩; exact absurd h1 hne
    · next hne =>
      split
      · next hsig => simp_all
      · next hsig => simp_all

theorem authorize_badnonce (env : Env) (req : CanonicalRequest) (k cn cur sig : Nat)
    (h : cn ≠ cur + 1) :
    authorize env req k cn cur sig = some .BadNonce := by
  unfold authorize
  split
  · rfl
  · simp [h]

theorem authorize_badsig (env : Env) (req : CanonicalRequest) (k cn cur sig : Nat)
    (h1 : cn = cur + 1) (h2 : env.checkSig k (canonicalMessage req) sig = false) :
    authorize env req k cn cur sig = some .BadSignature := by
  unfold authorize
  rw [if_neg (by omega), if_neg (by omega), h2]
  simp

/-! ## Characterization lemmas for the ledger operations -/

theorem register_ok_iff (env : Env) (st : Ledger) (pk : Nat) (u : String)
    (kh : Option String) (n sig now : Nat) :
    (register env st pk u kh n sig now).2 = none ↔
      st.dids pk = none ∧ pk ≠ 0 ∧ usernameLenOk u = true ∧ kycLenOk kh = true ∧
        n = 1 ∧ env.checkSig pk (canonicalMessage (.register pk u kh n)) sig = true := by
  unfold register
  split
  · next r heq => simp [heq]
  · next heq =>
    split
    · next h0 => simp [heq, h0]
    · next h0 =>
      split
      · next hu => simp_all
      · next hu =>
        split
        · next hk => simp_all
        · next hk =>
          split
          · next e hauth =>
            simp only [heq, h0]
            constructor
            · intro h; exact absurd h (by simp)
            · rintro ⟨-, -, -, -, h5, h6⟩
              rw [(authorize_none_iff env _ pk n 0 sig).mpr ⟨by omega, h6⟩] at hauth
              exact absurd hauth (by simp)
          · next hauth =>
            rw [authorize_none_iff] at hauth
            obtain ⟨h5, h6⟩ := hauth
            have h5' : n = 1 := by omega
            subst h5'
            simp_all

theorem register_ok_nonce (env : Env) (st : Ledger) (pk : Nat) (u : String)
    (kh : Option String) (n sig now : Nat)
    (h : (register env st pk u kh n sig now).2 = none) :
    n = getUserNonce st pk + 1 := by
  have h2 := (register_ok_iff env st pk u kh n sig now).mp h
  simp [getUserNonce, h2.1, h2.2.2.2.2.1]

theorem update_ok_nonce (env : Env) (st : Ledger) (pk : Nat) (nu nk : Option String)
    (n sig now : Nat) (h : (update env st pk nu nk n sig now).2 = none) :
    n = getUserNonce st pk + 1 := by
  unfold update at h
  split at h
  · simp at h
  · next r heq =>
    split at h
    · simp at h
    · split at h
      · simp at h
      · split at h
        · simp at h
        · split at h
          · simp at h
          · next hauth =>
            rw [authorize_none_iff] at hauth
            simp [getUserNonce, heq, hauth.1]

theorem revoke_ok_nonce (env : Env) (st : Ledger) (pk n sig now : Nat)
    (h : (revoke env st pk n sig now).2 = none) :
    n = getUserNonce st pk + 1 := by
  unfold revoke at h
  split at h
  · simp at h
  · next r heq =>
    split at h
    · simp at h
    · split at h
      · simp at h
      · next hauth =>
        rw [authorize_none_iff] at hauth
        simp [getUserNonce, heq, hauth.1]

theorem update_ok_sig (env : Env) (st : Ledger) (pk : Nat) (nu nk : Option String)
    (n sig now : Nat) (h : (update env st pk nu nk n sig now).2 = none) :
    env.checkSig pk (canonicalMessage (.update nu nk n)) sig = true := by
  unfold update at h
  split at h
  · simp at h
  · next r heq =>
    split at h
    · simp at h
    · split at h
      · simp at h
      · split at h
        · simp at h
        · split at h
          · simp at h
          · next hauth =>
            rw [authorize_none_iff] at hauth
            exact hauth.2

theorem revoke_ok_sig (env : Env) (st : Ledger) (pk n sig now : Nat)
    (h : (revoke env st pk n sig now).2 = none) :
    env.checkSig pk (canonicalMessage (.revoke n)) sig = true := by
  unfold revoke at h
  split at h
  · simp at h
  · next r heq =>
    split at h
    · simp at h
    · split at h
      · simp at h
      · next hauth =>
        rw [authorize_none_iff] at hauth
        exact hauth.2

theorem register_badnonce (env : Env) (st : Ledger) (pk : Nat) (u : String)
    (kh : Option String) (n sig now : Nat) (heq : st.dids pk = none) (h0 : pk ≠ 0)
    (hu : usernameLenOk u = true) (hk : kycLenOk kh = true) (hn : n ≠ 1) :
    register env st pk u kh n sig now = (st, some .BadNonce) := by
  have ha := authorize_badnonce env (.register pk u kh n) pk n 0 sig (by omega)
  simp [register, heq, h0, hu, hk, ha]

theorem update_badnonce (env : Env) (st : Ledger) (pk : Nat) (nu nk : Option String)
    (n sig now : Nat) (r : DIDRecord) (heq : st.dids pk = some r) (hact : r.isActive = true)
    (hf : ¬(nu = none ∧ nk = none)) (hlen : newUsernameLenOk nu = true)
    (hn : n ≠ r.nonce + 1) :
    update env st pk nu nk n sig now = (st, some .BadNonce) := by
  have ha := authorize_badnonce env (.update nu nk n) pk n r.nonce sig hn
  simp [update, heq, hact, hf, hlen, ha]

theorem revoke_badnonce (env : Env) (st : Ledger) (pk n sig now : Nat)
    (r : DIDRecord) (heq : st.dids pk = some r) (hact : r.isActive = true)
    (hn : n ≠ r.nonce + 1) :
    revoke env st pk n sig now = (st, some .BadNonce) := by
  have ha := authorize_badnonce env (.revoke n) pk n r.nonce sig hn
  simp [revoke, heq, hact, ha]

theorem register_badsig (env : Env) (st : Ledger) (pk : Nat) (u : String)
    (kh : Option String) (n sig now : Nat) (heq : st.dids pk = none) (h0 : pk ≠ 0)
    (hu : usernameLenOk u = true) (hk : kycLenOk kh = true) (hn : n = 1)
    (hsig : env.checkSig pk (canonicalMessage (.register pk u kh n)) sig = false) :
    register env st pk u kh n sig now = (st, some .BadSignature) := by
  have ha := authorize_badsig env (.register pk u kh n) pk n 0 sig (by omega) hsig
  simp [register, heq, h0, hu, hk, ha]

theorem update_badsig (env : Env) (st : Ledger) (pk : Nat) (nu nk : Option String)
    (n sig now : Nat) (r : DIDRecord) (heq : st.dids pk = some r) (hact : r.isActive = true)
    (hf : ¬(nu = none ∧ nk = none)) (hlen : newUsernameLenOk nu = true)
    (hn : n = r.nonce + 1)
    (hsig : env.checkSig pk (canonicalMessage (.update nu nk n)) sig = false) :
    update env st pk nu nk n sig now = (st, some .BadSignature) := by
  have ha := authorize_badsig env (.update nu nk n) pk n r.nonce sig hn hsig
  simp [update, heq, hact, hf, hlen, ha]

theorem revoke_badsig (env : Env) (st : Ledger) (pk n sig now : Nat)
    (r : DIDRecord) (heq : st.dids pk = some r) (hact : r.isActive = true)
    (hn : n = r.nonce + 1)
    (hsig : env.checkSig pk (canonicalMessage (.revoke n)) sig = false) :
    revoke env st pk n sig now = (st, some .BadSignature) := by
  have ha := authorize_badsig env (.revoke n) pk n r.nonce sig hn hsig
  simp [revoke, heq, hact, ha]

theorem register_dup (env : Env) (st : Ledger) (pk : Nat) (u : String)
    (kh : Option String) (n sig now : Nat) (r : DIDRecord) (heq : st.dids pk = some r) :
    register env st pk u kh n sig now = (st, some .DuplicateIdentity) := by
  simp [register, heq]

theorem update_revoked_eq (env : Env) (st : Ledger) (pk : Nat) (nu nk : Option String)
    (n sig now : Nat) (r : DIDRecord) (heq : st.dids pk = some r) (ha : r.isActive = false) :
    update env st pk nu nk n sig now = (st, some .RevokedIdentity) := by
  simp [update, heq, ha]

theorem revoke_revoked_eq (env : Env) (st : Ledger) (pk n sig now : Nat)
    (r : DIDRecord) (heq : st.dids pk = some r) (ha : r.isActive = false) :
    revoke env st pk n sig now = (st, some .AlreadyRevoked) := by
  simp [revoke, heq, ha]

end DIDRegistry

namespace DIDRegistry

/-! ## Frame and preservation lemmas -/

theorem register_frame (env : Env) (st : Ledger) (pk : Nat) (u : String)
    (kh : Option String) (n sig now k : Nat) (h : k ≠ pk) :
    (register env st pk u kh n sig now).1.dids k = st.dids k := by
  unfold register
  repeat' split
  all_goals simp [h]

theorem update_frame (env : Env) (st : Ledger) (pk : Nat) (nu nk : Option String)
    (n sig now k : Nat) (h : k ≠ pk) :
    (update env st pk nu nk n sig now).1.dids k = st.dids k := by
  unfold update
  repeat' split
  all_goals simp [h]

theorem revoke_frame (env : Env) (st : Ledger) (pk n sig now k : Nat) (h : k ≠ pk) :
    (revoke env st pk n sig now).1.dids k = st.dids k := by
  unfold revoke
  repeat' split
  all_goals simp [h]

theorem transfer_dids (st : Ledger) (s nw : Nat) :
    (transferOwnership st s nw).1.dids = st.dids := by
  unfold transferOwnership
  repeat' split
  all_goals rfl

theorem transfer_totalDids (st : Ledger) (s nw : Nat) :
    (transferOwnership st s nw).1.totalDids = st.totalDids := by
  unfold transferOwnership
  repeat' split
  all_goals rfl

theorem update_totalDids (env : Env) (st : Ledger) (pk : Nat) (nu nk : Option String)
    (n sig now : Nat) :
    (update env st pk nu nk n sig now).1.totalDids = st.totalDids := by
  unfold update
  repeat' split
  all_goals rfl

theorem revoke_totalDids (env : Env) (st : Ledger) (pk n sig now : Nat) :
    (revoke env st pk n sig now).1.totalDids = st.totalDids := by
  unfold revoke
  repeat' split
  all_goals rfl

theorem update_contractOwner (env : Env) (st : Ledger) (pk : Nat) (nu nk : Option String)
    (n sig now : Nat) :
    (update env st pk nu nk n sig now).1.contractOwner = st.contractOwner := by
  unfold update
  repeat' split
  all_goals rfl

theorem revoke_contractOwner (env : Env) (st : Ledger) (pk n sig now : Nat) :
    (revoke env st pk n sig now).1.contractOwner = st.contractOwner := by
  unfold revoke
  repeat' split
  all_goals rfl

theorem register_contractOwner (env : Env) (st : Ledger) (pk : Nat) (u : String)
    (kh : Option String) (n sig now : Nat) :
    (register env st pk u kh n sig now).1.contractOwner = st.contractOwner := by
  unfold register
  repeat' split
  all_goals rfl

theorem register_unchanged_or_ok (env : Env) (st : Ledger) (pk : Nat) (u : String)
    (kh : Option String) (n sig now : Nat) :
    (register env st pk u kh n sig now).1 = st ∨ (register env st pk u kh n sig now).2 = none := by
  unfold register
  repeat' split
  all_goals first
    | exact Or.inl rfl
    | exact Or.inr rfl

theorem update_unchanged_or_ok (env : Env) (st : Ledger) (pk : Nat)
    (nu nk : Option String) (n sig now : Nat) :
    (update env st pk nu nk n sig now).1 = st ∨ (update env st pk nu nk n sig now).2 = none := by
  unfold update
  repeat' split
  all_goals first
    | exact Or.inl rfl
    | exact Or.inr rfl

theorem revoke_unchanged_or_ok (env : Env) (st : Ledger) (pk n sig now : Nat) :
    (revoke env st pk n sig now).1 = st ∨ (revoke env st pk n sig now).2 = none := by
  unfold revoke
  repeat' split
  all_goals first
    | exact Or.inl rfl
    | exact Or.inr rfl

theorem transfer_unchanged_or_ok (st : Ledger) (s nw : Nat) :
    (transferOwnership st s nw).1 = st ∨ (transferOwnership st s nw).2 = none := by
  unfold transferOwnership
  repeat' split
  all_goals first
    | exact Or.inl rfl
    | exact Or.inr rfl

theorem applyRequest_rejected_unchanged (env : Env) (now : Nat) (st : Ledger) (req : Request)
    (h : (applyRequest env now st req).2 ≠ none) :
    (applyRequest env now st req).1 = st := by
  cases req with
  | registerReq pk u kh n sig =>
    rcases register_unchanged_or_ok env st pk u kh n sig now with h1 | h1
    · exact h1
    · exact absurd h1 h
  | updateReq pk nu nk n sig =>
    rcases update_unchanged_or_ok env st pk nu nk n sig now with h1 | h1
    · exact h1
    · exact absurd h1 h
  | revokeReq pk n sig =>
    rcases revoke_unchanged_or_ok env st pk n sig now with h1 | h1
    · exact h1
    · exact absurd h1 h
  | transferReq s nw =>
    rcases transfer_unchanged_or_ok st s nw with h1 | h1
    · exact h1
    · exact absurd h1 h

theorem update_ok_state (env : Env) (st : Ledger) (pk : Nat) (nu nk : Option String)
    (n sig now : Nat) (r : DIDRecord) (heq : st.dids pk = some r)
    (h : (update env st pk nu nk n sig now).2 = none) :
    (update env st pk nu nk n sig now).1 =
      { st with dids := fun k =>
          if k = pk then
            some { r with
                   username := nu.getD r.username,
                   kycHash := match nk with
                     | some kh => some kh
                     | none => r.kycHash,
                   updatedAt := now,
                   nonce := n }
          else st.dids k } := by
  unfold update at h ⊢
  simp only [heq] at h ⊢
  split at h
  · simp at h
  · next hact =>
    split at h
    · simp at h
    · next hf =>
      split at h
      · simp at h
      · next hlen =>
        split at h
        · simp at h
        · next hauth =>
          cases nk with
          | none =>
            have hnu : nu ≠ none := by simpa using hf
            simp [hact, hnu, hlen, hauth]
          | some kh => simp [hact, hf, hlen, hauth]

theorem applyRequest_preserves_revoked (env : Env) (now : Nat) (st : Ledger) (req : Request)
    (k : Nat) (r : DIDRecord) (heq : st.dids k = some r) (ha : r.isActive = false) :
    (applyRequest env now st req).1.dids k = some r := by
  cases req with
  | registerReq pk u kh n sig =>
    by_cases hpk : k = pk
    · subst hpk
      show (register env st k u kh n sig now).1.dids k = some r
      rw [register_dup env st k u kh n sig now r heq]
      exact heq
    · show (register env st pk u kh n sig now).1.dids k = some r
      rw [register_frame env st pk u kh n sig now k hpk]
      exact heq
  | updateReq pk nu nk n sig =>
    by_cases hpk : k = pk
    · subst hpk
      show (update env st k nu nk n sig now).1.dids k = some r
      rw [update_revoked_eq env st k nu nk n sig now r heq ha]
      exact heq
    · show (update env st pk nu nk n sig now).1.dids k = some r
      rw [update_frame env st pk nu nk n sig now k hpk]
      exact heq
  | revokeReq pk n sig =>
    by_cases hpk : k = pk
    · subst hpk
      show (revoke env st k n sig now).1.dids k = some r
      rw [revoke_revoked_eq env st k n sig now r heq ha]
      exact heq
    · show (revoke env st pk n sig now).1.dids k = some r
      rw [revoke_frame env st pk n sig now k hpk]
      exact heq
  | transferReq s nw =>
    show (transferOwnership st s nw).1.dids k = some r
    rw [transfer_dids st s nw]
    exact heq

theorem applySeq_preserves_revoked (env : Env) (reqs : List (Nat × Request)) :
    ∀ (st : Ledger) (k : Nat) (r : DIDRecord), st.dids k = some r → r.isActive = false →
      (applySeq env st reqs).dids k = some r := by
  induction reqs with
  | nil => intro st k r h _; exact h
  | cons p rest ih =>
    intro st k r h ha
    exact ih _ k r (applyRequest_preserves_revoked env p.1 st p.2 k r h ha) ha

/-! ## Concrete fixtures used by the witnesses -/

/-- A verifier environment that accepts every signature (as the mock
signatures of the first test suite do). -/
def envAcceptAll : Env := ⟨fun _ _ _ => true⟩

/-- A verifier environment that rejects every signature. -/
def envRejectAll : Env := ⟨fun _ _ _ => false⟩

/-- A concrete revoked record. -/
def recRevoked : DIDRecord :=
  { owner := 5, username := "alice", kycHash := some "k", isActive := false,
    createdAt := 10, updatedAt := 12, nonce := 2 }

/-- A concrete ledger holding one revoked record at key 5. -/
def stRevoked : Ledger :=
  { dids := fun k => if k = 5 then some recRevoked else none, totalDids := 1, contractOwner := 99 }

/-- A concrete active record. -/
def recActive : DIDRecord :=
  { owner := 5, username := "alice", kycHash := none, isActive := true,
    createdAt := 10, updatedAt := 10, nonce := 1 }

/-- A concrete ledger holding one active record at key 5. -/
def stActive : Ledger :=
  { dids := fun k => if k = 5 then some recActive else none, totalDids := 1, contractOwner := 99 }

end DIDRegistry

namespace DIDRegistry

/-! ## Claims -/

/-- C1: every mutating operation (register, update, revoke) is accepted only
when the claimed nonce equals the key's current on-file nonce plus 1 (0 for
an unregistered key); with the other preconditions satisfied, any other
claimed nonce — including one beyond the `MAX_NONCE_LOOKAHEAD` ceiling — is
rejected with `BadNonce`; with nonce `currentNonce + 1` and a verifying
signature a first register is accepted. -/
theorem claim_C1_nonce_policy (env : Env) (st : Ledger) (pk : Nat) (u : String)
    (kh nu nk : Option String) (n sig now : Nat) :
    ((register env st pk u kh n sig now).2 = none → n = getUserNonce st pk + 1)
    ∧ ((update env st pk nu nk n sig now).2 = none → n = getUserNonce st pk + 1)
    ∧ ((revoke env st pk n sig now).2 = none → n = getUserNonce st pk + 1)
    ∧ (st.dids pk = none → pk ≠ 0 → usernameLenOk u = true → kycLenOk kh = true →
        n ≠ 1 → register env st pk u kh n sig now = (st, some .BadNonce))
    ∧ (st.dids pk = none → pk ≠ 0 → usernameLenOk u = true → kycLenOk kh = true →
        n = 1 → env.checkSig pk (canonicalMessage (.register pk u kh n)) sig = true →
        (register env st pk u kh n sig now).2 = none)
    ∧ (∀ r : DIDRecord, st.dids pk = some r → r.isActive = true → ¬(nu = none ∧ nk = none) →
        newUsernameLenOk nu = true → n ≠ r.nonce + 1 →
        update env st pk nu nk n sig now = (st, some .BadNonce))
    ∧ (∀ r : DIDRecord, st.dids pk = some r → r.isActive = true → n ≠ r.nonce + 1 →
        revoke env st pk n sig now = (st, some .BadNonce)) := by
  refine ⟨?_, ?_, ?_, ?_, ?_, ?_, ?_⟩
  · exact register_ok_nonce env st pk u kh n sig now
  · exact update_ok_nonce env st pk nu nk n sig now
  · exact revoke_ok_nonce env st pk n sig now
  · intro heq h0 hu hk hn
    exact register_badnonce env st pk u kh n sig now heq h0 hu hk hn
  · intro heq h0 hu hk hn hsig
    exact (register_ok_iff env st pk u kh n sig now).mpr ⟨heq, h0, hu, hk, hn, hsig⟩
  · intro r heq hact hf hlen hn
    exact update_badnonce env st pk nu nk n sig now r heq hact hf hlen hn
  · intro r heq hact hn
    exact revoke_badnonce env st pk n sig now r heq hact hn

/-- Witness for C1: on a fresh ledger, a first register with nonce 5 is
rejected with `BadNonce`, one with nonce 1 is accepted, and one with
nonce 200 (beyond the lookahead ceiling) is rejected with `BadNonce`. -/
theorem claim_C1_witness :
    (register envAcceptAll (initLedger 99) 7 "alice" none 5 0 0
        = (initLedger 99, some .BadNonce))
    ∧ ((register envAcceptAll (initLedger 99) 7 "alice" none 1 0 0).2 = none)
    ∧ (register envAcceptAll (initLedger 99) 7 "big" none 200 0 0
        = (initLedger 99, some .BadNonce)) := by
  refine ⟨?_, ?_, ?_⟩
  · exact (claim_C1_nonce_policy envAcceptAll (initLedger 99) 7 "alice" none none none 5 0
      0).2.2.2.1 rfl (by decide) (by decide) (by decide) (by decide)
  · exact (claim_C1_nonce_policy envAcceptAll (initLedger 99) 7 "alice" none none none 1 0
      0).2.2.2.2.1 rfl (by decide) (by decide) (by decide) rfl rfl
  · exact (claim_C1_nonce_policy envAcceptAll (initLedger 99) 7 "big" none none none 200 0
      0).2.2.2.1 rfl (by decide) (by decide) (by decide) (by decide)

/-- C2: once a key's record is revoked (`isActive = false`), every
subsequent register, update, or revoke targeting that key is rejected —
forever, over any sequence of requests, for every nonce and signature — and
the record (in particular `isActive`) never changes again. -/
theorem claim_C2_revocation_final (st : Ledger) (k : Nat) (r : DIDRecord)
    (heq : st.dids k = some r) (ha : r.isActive = false) :
    (∀ (env : Env) (reqs : List (Nat × Request)), (applySeq env st reqs).dids k = some r)
    ∧ (∀ (env : Env) (u : String) (kh : Option String) (n sig now : Nat),
        register env st k u kh n sig now = (st, some .DuplicateIdentity))
    ∧ (∀ (env : Env) (nu nk : Option String) (n sig now : Nat),
        update env st k nu nk n sig now = (st, some .RevokedIdentity))
    ∧ (∀ (env : Env) (n sig now : Nat),
        revoke env st k n sig now = (st, some .AlreadyRevoked))
    ∧ (∀ (env : Env) (now : Nat) (req : Request),
        isDidActive (applyRequest env now st req).1 k = false) := by
  refine ⟨?_, ?_, ?_, ?_, ?_⟩
  · intro env reqs
    exact applySeq_preserves_revoked env reqs st k r heq ha
  · intro env u kh n sig now
    exact register_dup env st k u kh n sig now r heq
  · intro env nu nk n sig now
    exact update_revoked_eq env st k nu nk n sig now r heq ha
  · intro env n sig now
    exact revoke_revoked_eq env st k n sig now r heq ha
  · intro env now req
    have h1 := applyRequest_preserves_revoked env now st req k r heq ha
    simp [isDidActive, h1, ha]

/-- Witness for C2: on a concrete ledger whose key 5 is revoked, a whole
sequence of register/update/revoke attempts (all with otherwise-valid
nonces and accepted signatures) leaves the revoked record intact, and each
single operation is rejected with the corresponding reason. -/
theorem claim_C2_witness :
    ((applySeq envAcceptAll stRevoked
        [(20, .registerReq 5 "bob" none 1 0), (21, .updateReq 5 (some "bob") none 3 0),
         (22, .revokeReq 5 3 0)]).dids 5 = some recRevoked)
    ∧ (update envAcceptAll stRevoked 5 (some "bob") none 3 0 20
        = (stRevoked, some .RevokedIdentity))
    ∧ (revoke envAcceptAll stRevoked 5 3 0 20 = (stRevoked, some .AlreadyRevoked))
    ∧ (register envAcceptAll stRevoked 5 "bob" none 1 0 20
        = (stRevoked, some .DuplicateIdentity)) := by
  have h := claim_C2_revocation_final stRevoked 5 recRevoked (by decide) rfl
  exact ⟨h.1 envAcceptAll _, h.2.2.1 envAcceptAll (some "bob") none 3 0 20,
    h.2.2.2.1 envAcceptAll 3 0 20, h.2.1 envAcceptAll "bob" none 1 0 20⟩

/-- C3: whenever the signature does not verify against the claimed signer
key over the canonical message, the operation is rejected and the state is
unchanged; when all structural preconditions and the nonce policy pass and
only the signature fails, the rejection reason is exactly `BadSignature`. -/
theorem claim_C3_bad_signature (env : Env) (st : Ledger) (pk : Nat) (u : String)
    (kh nu nk : Option String) (n sig now : Nat) :
    (env.checkSig pk (canonicalMessage (.register pk u kh n)) sig = false →
        (register env st pk u kh n sig now).2 ≠ none
          ∧ (register env st pk u kh n sig now).1 = st)
    ∧ (env.checkSig pk (canonicalMessage (.update nu nk n)) sig = false →
        (update env st pk nu nk n sig now).2 ≠ none
          ∧ (update env st pk nu nk n sig now).1 = st)
    ∧ (env.checkSig pk (canonicalMessage (.revoke n)) sig = false →
        (revoke env st pk n sig now).2 ≠ none
          ∧ (revoke env st pk n sig now).1 = st)
    ∧ (st.dids pk = none → pk ≠ 0 → usernameLenOk u = true → kycLenOk kh = true → n = 1 →
        env.checkSig pk (canonicalMessage (.register pk u kh n)) sig = false →
        register env st pk u kh n sig now = (st, some .BadSignature))
    ∧ (∀ r : DIDRecord, st.dids pk = some r → r.isActive = true → ¬(nu = none ∧ nk = none) →
        newUsernameLenOk nu = true → n = r.nonce + 1 →
        env.checkSig pk (canonicalMessage (.update nu nk n)) sig = false →
        update env st pk nu nk n sig now = (st, some .BadSignature))
    ∧ (∀ r : DIDRecord, st.dids pk = some r → r.isActive = true → n = r.nonce + 1 →
        env.checkSig pk (canonicalMessage (.revoke n)) sig = false →
        revoke env st pk n sig now = (st, some .BadSignature)) := by
  refine ⟨?_, ?_, ?_, ?_, ?_, ?_⟩
  · intro hsig
    have hne : (register env st pk u kh n sig now).2 ≠ none := by
      intro h
      have := ((register_ok_iff env st pk u kh n sig now).mp h).2.2.2.2.2
      rw [hsig] at this
      exact Bool.false_ne_true this
    refine ⟨hne, ?_⟩
    rcases register_unchanged_or_ok env st pk u kh n sig now with h1 | h1
    · exact h1
    · exact absurd h1 hne
  · intro hsig
    have hne : (update env st pk nu nk n sig now).2 ≠ none := by
      intro h
      have := update_ok_sig env st pk nu nk n sig now h
      rw [hsig] at this
      exact Bool.false_ne_true this
    refine ⟨hne, ?_⟩
    rcases update_unchanged_or_ok env st pk nu nk n sig now with h1 | h1
    · exact h1
    · exact absurd h1 hne
  · intro hsig
    have hne : (revoke env st pk n sig now).2 ≠ none := by
      intro h
      have := revoke_ok_sig env st pk n sig now h
      rw [hsig] at this
      exact Bool.false_ne_true this
    refine ⟨hne, ?_⟩
    rcases revoke_unchanged_or_ok env st pk n sig now with h1 | h1
    · exact h1
    · exact absurd h1 hne
  · intro heq h0 hu hk hn hsig
    exact register_badsig env st pk u kh n sig now heq h0 hu hk hn hsig
  · intro r heq hact hf hlen hn hsig
    exact update_badsig env st pk nu nk n sig now r heq hact hf hlen hn hsig
  · intro r heq hact hn hsig
    exact revoke_badsig env st pk n sig now r heq hact hn hsig

/-- Witness for C3: with a verifier that rejects the supplied signatures, a
structurally valid register on a fresh ledger, and a structurally valid
update and revoke on a ledger with an active record, are each rejected with
`BadSignature` and leave the state unchanged. -/
theorem claim_C3_witness :
    (register envRejectAll (initLedger 99) 7 "alice" none 1 0 0
        = (initLedger 99, some .BadSignature))
    ∧ (update envRejectAll stActive 5 (some "bob") none 2 0 20
        = (stActive, some .BadSignature))
    ∧ (revoke envRejectAll stActive 5 2 0 20 = (stActive, some .BadSignature)) := by
  have h := claim_C3_bad_signature envRejectAll (initLedger 99) 7 "alice" none none none 1 0 0
  have h2 := claim_C3_bad_signature envRejectAll stActive 5 "alice" none (some "bob") none 2 0 20
  refine ⟨?_, ?_, ?_⟩
  · exact h.2.2.2.1 rfl (by decide) (by decide) (by decide) rfl rfl
  · exact h2.2.2.2.2.1 recActive (by decide) rfl (by decide) (by decide) (by decide) rfl
  · exact h2.2.2.2.2.2 recActive (by decide) rfl (by decide) rfl

end DIDRegistry

namespace DIDRegistry

/-- C4 (counterexample): the canonicalization is NOT injective — a register
request whose username verbatim embeds the text `kycHash:h` and carries no
KYC hash canonicalizes to exactly the same byte string as the distinct
request with username `alice` and KYC hash `h`. -/
theorem claim_C4_counterexample :
    canonicalMessage (.register 1 "alicekycHash:h" none 1)
      = canonicalMessage (.register 1 "alice" (some "h") 1)
    ∧ CanonicalRequest.register 1 "alicekycHash:h" none 1
        ≠ CanonicalRequest.register 1 "alice" (some "h") 1 := by
  decide

/-- C4 (amended): canonical messages of requests with distinct actions are
always distinct (the action tag prefixes the message); injectivity over all
same-action parameter sets fails, as the counterexample shows, because
verbatim string fields are not delimited from the optional-field labels. -/
theorem claim_C4_amended (pk : Nat) (u : String) (kh nu nk : Option String) (n n' n'' : Nat) :
    canonicalMessage (.register pk u kh n) ≠ canonicalMessage (.update nu nk n')
    ∧ canonicalMessage (.register pk u kh n) ≠ canonicalMessage (.revoke n'')
    ∧ canonicalMessage (.update nu nk n') ≠ canonicalMessage (.revoke n'') := by
  refine ⟨?_, ?_, ?_⟩
  · intro h
    have hd := congrArg String.data h
    revert hd
    cases kh <;> cases nu <;> cases nk <;> simp [canonicalMessage, String.data_append]
  · intro h
    have hd := congrArg String.data h
    revert hd
    cases kh <;> simp [canonicalMessage, String.data_append]
  · intro h
    have hd := congrArg String.data h
    revert hd
    cases nu <;> cases nk <;> simp [canonicalMessage, String.data_append]

/-- Witness for the amended C4 at a concrete input: a concrete register
message differs from a concrete revoke-nonce-only update message. -/
theorem claim_C4_witness :
    canonicalMessage (.register 2 "u" none 3) ≠ canonicalMessage (.update none none 3) :=
  (claim_C4_amended 2 "u" none none none 3 3 3).1

/-- C5: every rejected request is atomic — whatever the state and whatever
the inbound request (register, update, revoke, or ownership transfer), a
rejection leaves the entire ledger (every record, every nonce,
`totalDids`, and the contract owner) exactly as it was. -/
theorem claim_C5_atomicity (env : Env) (now : Nat) (st : Ledger) (req : Request)
    (h : (applyRequest env now st req).2 ≠ none) :
    (applyRequest env now st req).1 = st :=
  applyRequest_rejected_unchanged env now st req h

/-- Witness for C5: a first register with nonce 5 on a fresh ledger is
rejected and the ledger is unchanged. -/
theorem claim_C5_witness :
    ((applyRequest envAcceptAll 0 (initLedger 99) (.registerReq 7 "alice" none 5 0)).2 ≠ none)
    ∧ ((applyRequest envAcceptAll 0 (initLedger 99) (.registerReq 7 "alice" none 5 0)).1
        = initLedger 99) :=
  ⟨by decide, claim_C5_atomicity envAcceptAll 0 (initLedger 99) _ (by decide)⟩

/-- C6: a register request for a key that already has a record — active or
revoked — is rejected with `DuplicateIdentity` and the identity count is
unchanged; hence a record, once created, is never replaced and a revoked
key can never re-register. -/
theorem claim_C6_duplicate (env : Env) (st : Ledger) (pk : Nat) (u : String)
    (kh : Option String) (n sig now : Nat) (r : DIDRecord) (heq : st.dids pk = some r) :
    register env st pk u kh n sig now = (st, some .DuplicateIdentity)
    ∧ getTotalDids (register env st pk u kh n sig now).1 = getTotalDids st := by
  have h := register_dup env st pk u kh n sig now r heq
  exact ⟨h, by rw [h]⟩

/-- Witness for C6: registering key 5 again over its active record, and
over its revoked record, are both rejected with `DuplicateIdentity` with
the count unchanged. -/
theorem claim_C6_witness :
    (register envAcceptAll stActive 5 "bob" none 2 0 30 = (stActive, some .DuplicateIdentity))
    ∧ (register envAcceptAll stRevoked 5 "bob" none 3 0 30
        = (stRevoked, some .DuplicateIdentity))
    ∧ (getTotalDids (register envAcceptAll stRevoked 5 "bob" none 3 0 30).1
        = getTotalDids stRevoked) := by
  have h1 := claim_C6_duplicate envAcceptAll stActive 5 "bob" none 2 0 30 recActive (by decide)
  have h2 := claim_C6_duplicate envAcceptAll stRevoked 5 "bob" none 3 0 30 recRevoked (by decide)
  exact ⟨h1.1, h2.1, h2.2⟩

/-- C7: a register request with an empty username is rejected with
`InvalidField` (no record created, count unchanged, since the whole state
is returned untouched), and register succeeds only when
`1 ≤ len(username) ≤ MAX_USERNAME_LENGTH`. -/
theorem claim_C7_username_length (env : Env) (st : Ledger) (pk : Nat) (u : String)
    (kh : Option String) (n sig now : Nat) (heq : st.dids pk = none) (h0 : pk ≠ 0) :
    (u.length = 0 → register env st pk u kh n sig now = (st, some .InvalidField))
    ∧ ((register env st pk u kh n sig now).2 = none →
        1 ≤ u.length ∧ u.length ≤ MAX_USERNAME_LENGTH) := by
  constructor
  · intro hu
    have hlen : usernameLenOk u = false := by simp [usernameLenOk, hu]
    simp [register, heq, h0, hlen]
  · intro h
    have h2 := ((register_ok_iff env st pk u kh n sig now).mp h).2.2.1
    simpa [usernameLenOk] using h2

/-- Witness for C7: the exact input of the repository's empty-string test
(username `""`, KYC hash `""`, nonce 1) is rejected with `InvalidField` on
a fresh ledger. -/
theorem claim_C7_witness :
    register envAcceptAll (initLedger 99) 7 "" (some "") 1 0 0
      = (initLedger 99, some .InvalidField) :=
  (claim_C7_username_length envAcceptAll (initLedger 99) 7 "" (some "") 1 0 0 rfl
    (by decide)).1 rfl

/-- C8: the read-only queries return absent for a key with no record or a
revoked record (username and KYC-hash accessors), the current-nonce query
returns 0 for a never-registered key, and the active check is false in both
cases; all queries are pure functions of the ledger, so they change no
state by construction. -/
theorem claim_C8_queries (st : Ledger) (k : Nat) :
    (st.dids k = none →
        getDid st k = none ∧ getDidUsername st k = none ∧ getDidKycHash st k = none ∧
          getUserNonce st k = 0 ∧ isDidActive st k = false)
    ∧ (∀ r : DIDRecord, st.dids k = some r → r.isActive = false →
        getDidUsername st k = none ∧ getDidKycHash st k = none ∧
          isDidActive st k = false) := by
  constructor
  · intro heq
    simp [getDid, getDidUsername, getDidKycHash, getUserNonce, isDidActive, heq]
  · intro r heq ha
    simp [getDidUsername, getDidKycHash, isDidActive, heq, ha]

/-- Witness for C8: all queries return the absent/zero/false values on a
fresh ledger, and the field accessors return absent for the revoked key of
the concrete revoked ledger. -/
theorem claim_C8_witness :
    (getDid (initLedger 99) 7 = none ∧ getDidUsername (initLedger 99) 7 = none ∧
      getDidKycHash (initLedger 99) 7 = none ∧ getUserNonce (initLedger 99) 7 = 0 ∧
      isDidActive (initLedger 99) 7 = false)
    ∧ (getDidUsername stRevoked 5 = none ∧ getDidKycHash stRevoked 5 = none ∧
        isDidActive stRevoked 5 = false) := by
  have h1 := (claim_C8_queries (initLedger 99) 7).1 rfl
  have h2 := (claim_C8_queries stRevoked 5).2 recRevoked (by decide) rfl
  exact ⟨h1, h2⟩

/-- C9: a successful update on key K rewrites exactly the supplied fields
plus `updatedAt` and `nonce` of K's record — an absent new username or new
KYC hash keeps the prior value, and `owner`, `createdAt` (and `isActive`)
are untouched — while every other key's record is left unchanged by
register, update, and revoke on K, and update leaves the identity count
unchanged. -/
theorem claim_C9_update_frame (env : Env) (st : Ledger) (pk : Nat) (nu nk : Option String)
    (n sig now : Nat) (r : DIDRecord) (heq : st.dids pk = some r)
    (h : (update env st pk nu nk n sig now).2 = none) :
    ((update env st pk nu nk n sig now).1.dids pk =
        some { owner := r.owner, username := nu.getD r.username,
               kycHash := match nk with
                 | some kh => some kh
                 | none => r.kycHash,
               isActive := r.isActive, createdAt := r.createdAt,
               updatedAt := now, nonce := n })
    ∧ (∀ k, k ≠ pk → (update env st pk nu nk n sig now).1.dids k = st.dids k)
    ∧ ((update env st pk nu nk n sig now).1.totalDids = st.totalDids)
    ∧ (∀ (u : String) (kh : Option String) (k : Nat), k ≠ pk →
        (register env st pk u kh n sig now).1.dids k = st.dids k)
    ∧ (∀ k, k ≠ pk → (revoke env st pk n sig now).1.dids k = st.dids k) := by
  refine ⟨?_, ?_, ?_, ?_, ?_⟩
  · rw [update_ok_state env st pk nu nk n sig now r heq h]
    simp
  · intro k hk
    exact update_frame env st pk nu nk n sig now k hk
  · exact update_totalDids env st pk nu nk n sig now
  · intro u kh k hk
    exact register_frame env st pk u kh n sig now k hk
  · intro k hk
    exact revoke_frame env st pk n sig now k hk

/-- Witness for C9: a concrete successful username-only update on key 5
changes exactly that record's username, `updatedAt` and nonce (KYC hash,
owner, `createdAt`, activity kept), and key 6 and the count are
untouched. -/
theorem claim_C9_witness :
    ((update envAcceptAll stActive 5 (some "bob") none 2 0 20).2 = none)
    ∧ ((update envAcceptAll stActive 5 (some "bob") none 2 0 20).1.dids 5 =
        some { owner := 5, username := "bob", kycHash := none, isActive := true,
               createdAt := 10, updatedAt := 20, nonce := 2 })
    ∧ ((update envAcceptAll stActive 5 (some "bob") none 2 0 20).1.dids 6 = stActive.dids 6)
    ∧ ((update envAcceptAll stActive 5 (some "bob") none 2 0 20).1.totalDids
        = stActive.totalDids) := by
  have h := claim_C9_update_frame envAcceptAll stActive 5 (some "bob") none 2 0 20 recActive
    (by decide) (by decide)
  refine ⟨by decide, ?_, h.2.1 6 (by decide), h.2.2.1⟩
  have h1 := h.1
  simpa [recActive] using h1

/-- C10: the contract owner starts as the deployer and a `TransferOwnership`
message succeeds exactly when the sender is the current owner and the
proposed owner differs from the current one; otherwise it is rejected with
the stored owner unchanged; and ownership transfer never touches any DID
record or the identity count. -/
theorem claim_C10_ownership (st : Ledger) (sender nw d : Nat) :
    ((initLedger d).contractOwner = d)
    ∧ (sender = st.contractOwner → nw ≠ st.contractOwner →
        transferOwnership st sender nw = ({ st with contractOwner := nw }, none))
    ∧ (sender ≠ st.contractOwner →
        transferOwnership st sender nw = (st, some .NotOwner))
    ∧ (nw = st.contractOwner →
        (transferOwnership st sender nw).1 = st ∧ (transferOwnership st sender nw).2 ≠ none)
    ∧ ((transferOwnership st sender nw).1.dids = st.dids)
    ∧ ((transferOwnership st sender nw).1.totalDids = st.totalDids) := by
  refine ⟨rfl, ?_, ?_, ?_, transfer_dids st sender nw, transfer_totalDids st sender nw⟩
  · intro hs hn
    simp [transferOwnership, hs, hn]
  · intro hs
    simp [transferOwnership, hs]
  · intro hn
    by_cases hs : sender = st.contractOwner
    · constructor
      · simp [transferOwnership, hs, hn]
      · simp [transferOwnership, hs, hn]
    · constructor
      · simp [transferOwnership, hs]
      · simp [transferOwnership, hs]

/-- Witness for C10: on a ledger deployed by 1, the owner transfers to 2;
a transfer sent by the non-owner 3 is rejected with the owner unchanged; a
transfer to the current owner is rejected with the state unchanged; and the
record map is untouched by the successful transfer. -/
theorem claim_C10_witness :
    ((initLedger 1).contractOwner = 1)
    ∧ (transferOwnership (initLedger 1) 1 2 = ({ initLedger 1 with contractOwner := 2 }, none))
    ∧ (transferOwnership (initLedger 1) 3 2 = (initLedger 1, some .NotOwner))
    ∧ ((transferOwnership (initLedger 1) 1 1).1 = initLedger 1)
    ∧ ((transferOwnership (initLedger 1) 1 2).1.dids = (initLedger 1).dids) := by
  have h12 := claim_C10_ownership (initLedger 1) 1 2 1
  have h32 := claim_C10_ownership (initLedger 1) 3 2 1
  have h11 := claim_C10_ownership (initLedger 1) 1 1 1
  exact ⟨h12.1, h12.2.1 rfl (by decide), h32.2.2.1 (by decide),
    (h11.2.2.2.1 rfl).1, h12.2.2.2.2.1⟩

end DIDRegistry
